import Mathlib

/-!
Shallow embedding of the automobile-sales dashboard
(`DV0101EN-Final-Assign-Part-2-Questions.py`).

The program loads a CSV into an in-memory table and exposes two pure
callbacks:
* `update_input_container` — maps the report-type dropdown value to the
  disabled-flag of the year dropdown;
* `update_output_container` — maps `(report_type, selected_year)` to a
  rendered panel: either a placeholder message or four derived tables
  obtained by pandas `groupby` / `mean` / `sum` calls.

Rows are modelled by `Record`, the dataset by `List Record`, numeric cells
by `Rat` (exact arithmetic for `mean` and `sum`).  A pandas
`groupby(k)[c].agg().reset_index()` is modelled by `groupbyAgg`: the
distinct keys in ascending order (pandas sorts group keys by default),
each paired with the aggregate of the column over the rows carrying that
key.  Python truthiness of the year input and the `int(...)` coercion with
its fallback are modelled explicitly (`YearInput.isFalsy`, `coerceYear`).
-/

/-- Record models one row of the loaded CSV: columns Year, Month,
Recession, Vehicle_Type, Automobile_Sales, Advertising_Expenditure,
unemployment_rate. -/
structure Record where
  Year : Int
  Month : Int
  Recession : Int
  Vehicle_Type : String
  Automobile_Sales : Rat
  Advertising_Expenditure : Rat
  unemployment_rate : Rat
deriving DecidableEq, Repr

/-- Insert an element into a list assumed sorted by the boolean
comparison `le`, keeping it sorted. -/
def insertSorted {α : Type} (le : α → α → Bool) (x : α) : List α → List α
  | [] => [x]
  | y :: ys => if le x y then x :: y :: ys else y :: insertSorted le x ys

/-- Insertion sort by a boolean comparison. -/
def insertionSortBy {α : Type} (le : α → α → Bool) : List α → List α
  | [] => []
  | x :: xs => insertSorted le x (insertionSortBy le xs)

/-- Distinct elements of a list (each value kept once). -/
def uniqueKeys {α : Type} [DecidableEq α] : List α → List α
  | [] => []
  | x :: xs => if x ∈ xs then uniqueKeys xs else x :: uniqueKeys xs

/-- Sum of a list of rationals. -/
def listSum (l : List Rat) : Rat := l.foldr (· + ·) 0

/-- Arithmetic mean of a list of rationals (pandas `mean` on a group;
groups are nonempty by construction). -/
def listMean (l : List Rat) : Rat := listSum l / (l.length : Rat)

/-- Model of `rows.groupby(key)[val].agg().reset_index()`: the distinct
key values in ascending order, each paired with the aggregate of `val`
over the rows having that key. -/
def groupbyAgg {K : Type} [DecidableEq K] (le : K → K → Bool)
    (key : Record → K) (val : Record → Rat) (agg : List Rat → Rat)
    (rows : List Record) : List (K × Rat) :=
  (insertionSortBy le (uniqueKeys (rows.map key))).map
    (fun k => (k, agg ((rows.filter (fun r => decide (key r = k))).map val)))

/-- Boolean ascending comparison on Int keys. -/
def intLe (a b : Int) : Bool := decide (a ≤ b)

/-- Boolean ascending (lexicographic) comparison on String keys. -/
def strLe (a b : String) : Bool := decide (a ≤ b)

/-- Boolean lexicographic comparison on (unemployment_rate, Vehicle_Type)
keys, matching the order pandas uses for a two-column groupby. -/
def ratStrLe (a b : Rat × String) : Bool :=
  decide (a.1 < b.1) || (decide (a.1 = b.1) && decide (a.2 ≤ b.2))

/-- Model of `df.sort_values("Month")` on a (Month, value) table. -/
def sort_values (t : List (Int × Rat)) : List (Int × Rat) :=
  insertionSortBy (fun p q => intLe p.1 q.1) t

/-- Line 80: `recession_data.groupby("Year")["Automobile_Sales"].mean().reset_index()`. -/
def yearly_rec (rows : List Record) : List (Int × Rat) :=
  groupbyAgg intLe (fun r => r.Year) (fun r => r.Automobile_Sales) listMean rows

/-- Line 86: `recession_data.groupby("Vehicle_Type")["Automobile_Sales"].mean().reset_index()`. -/
def average_sales (rows : List Record) : List (String × Rat) :=
  groupbyAgg strLe (fun r => r.Vehicle_Type) (fun r => r.Automobile_Sales) listMean rows

/-- Line 92: `recession_data.groupby("Vehicle_Type")["Advertising_Expenditure"].sum().reset_index()`. -/
def exp_rec (rows : List Record) : List (String × Rat) :=
  groupbyAgg strLe (fun r => r.Vehicle_Type) (fun r => r.Advertising_Expenditure) listSum rows

/-- Lines 99-103: `recession_data.groupby(["unemployment_rate", "Vehicle_Type"])["Automobile_Sales"].mean().reset_index()`. -/
def unemp_data (rows : List Record) : List ((Rat × String) × Rat) :=
  groupbyAgg ratStrLe (fun r => (r.unemployment_rate, r.Vehicle_Type))
    (fun r => r.Automobile_Sales) listMean rows

/-- Line 146: `data.groupby("Year")["Automobile_Sales"].mean().reset_index()` (whole dataset). -/
def yas (rows : List Record) : List (Int × Rat) :=
  groupbyAgg intLe (fun r => r.Year) (fun r => r.Automobile_Sales) listMean rows

/-- Line 152: `yearly_data.groupby("Month")["Automobile_Sales"].sum().reset_index().sort_values("Month")`. -/
def mas (rows : List Record) : List (Int × Rat) :=
  sort_values
    (groupbyAgg intLe (fun r => r.Month) (fun r => r.Automobile_Sales) listSum rows)

/-- Line 158: `yearly_data.groupby("Vehicle_Type")["Automobile_Sales"].mean().reset_index()`. -/
def avr_vdata (rows : List Record) : List (String × Rat) :=
  groupbyAgg strLe (fun r => r.Vehicle_Type) (fun r => r.Automobile_Sales) listMean rows

/-- Line 164: `yearly_data.groupby("Vehicle_Type")["Advertising_Expenditure"].sum().reset_index()`. -/
def exp_data (rows : List Record) : List (String × Rat) :=
  groupbyAgg strLe (fun r => r.Vehicle_Type) (fun r => r.Advertising_Expenditure) listSum rows

/-- YearInput models the raw `selected_year` callback argument: unset
(`None`), a numeric dropdown value, or an arbitrary string. -/
inductive YearInput where
  | unset : YearInput
  | intVal : Int → YearInput
  | strVal : String → YearInput
deriving DecidableEq, Repr

/-- Python truthiness test `not selected_year` (line 130): None, 0 and
the empty string are falsy. -/
def YearInput.isFalsy : YearInput → Bool
  | .unset => true
  | .intVal n => decide (n = 0)
  | .strVal s => decide (s = "")

/-- Whitespace as CPython strips it around an int literal: the code
points accepted by `Py_UNICODE_ISSPACE` (ASCII whitespace, the 0x1C-0x1F
separators, NEL, NBSP, OGHAM SPACE MARK, the 0x2000-0x200A spaces, LINE
and PARAGRAPH SEPARATOR, NARROW NBSP, MEDIUM MATHEMATICAL SPACE and
IDEOGRAPHIC SPACE). -/
def isPySpace (c : Char) : Bool :=
  (decide (0x9 ≤ c.toNat) && decide (c.toNat ≤ 0xD)) ||
  (decide (0x1C ≤ c.toNat) && decide (c.toNat ≤ 0x1F)) ||
  decide (c.toNat = 0x20) || decide (c.toNat = 0x85) || decide (c.toNat = 0xA0) ||
  decide (c.toNat = 0x1680) ||
  (decide (0x2000 ≤ c.toNat) && decide (c.toNat ≤ 0x200A)) ||
  decide (c.toNat = 0x2028) || decide (c.toNat = 0x2029) ||
  decide (c.toNat = 0x202F) || decide (c.toNat = 0x205F) || decide (c.toNat = 0x3000)

/-- First code points of the Unicode decimal-digit (category Nd) runs of
ten, from DIGIT ZERO through the supplementary planes, which CPython
accepts as digits of an int literal in any script. -/
def ndRangeStarts : List Nat :=
  [0x30, 0x660, 0x6F0, 0x7C0, 0x966, 0x9E6, 0xA66, 0xAE6, 0xB66, 0xBE6,
   0xC66, 0xCE6, 0xD66, 0xDE6, 0xE50, 0xED0, 0xF20, 0x1040, 0x1090, 0x17E0,
   0x1810, 0x1946, 0x19D0, 0x1A80, 0x1A90, 0x1B50, 0x1BB0, 0x1C40, 0x1C50,
   0xA620, 0xA8D0, 0xA900, 0xA9D0, 0xA9F0, 0xAA50, 0xABF0, 0xFF10,
   0x104A0, 0x10D30, 0x10D40, 0x11066, 0x110F0, 0x11136, 0x111D0, 0x112F0,
   0x11450, 0x114D0, 0x11650, 0x116C0, 0x11730, 0x118E0, 0x11950, 0x11BF0,
   0x11C50, 0x11D50, 0x11DA0, 0x11F50, 0x16A60, 0x16AC0, 0x16B50, 0x16D70,
   0x1CCF0, 0x1D7CE, 0x1D7D8, 0x1D7E2, 0x1D7EC, 0x1D7F6, 0x1E140, 0x1E2F0,
   0x1E4F0, 0x1E950, 0x1FBF0]

/-- Decimal value of a Unicode decimal digit: its offset in the Nd run
of ten holding it; `none` for any other character. -/
def decDigit? (c : Char) : Option Nat :=
  (ndRangeStarts.find? (fun s => decide (s ≤ c.toNat) && decide (c.toNat ≤ s + 9))).map
    (fun s => c.toNat - s)

/-- Surrounding whitespace stripped from both ends, as the Python int
conversion does before parsing. -/
def stripChars (cs : List Char) : List Char :=
  ((cs.dropWhile isPySpace).reverse.dropWhile isPySpace).reverse

/-- Continue a digit group: digits accumulate; a single underscore is
allowed when a digit follows it directly; anything else fails. -/
def parseDigitsU (acc : Nat) : List Char → Option Nat
  | [] => some acc
  | c :: cs =>
    match decDigit? c with
    | some v => parseDigitsU (acc * 10 + v) cs
    | none =>
      if c = '_' then
        match cs with
        | [] => none
        | d :: cs2 =>
          match decDigit? d with
          | some v => parseDigitsU (acc * 10 + v) cs2
          | none => none
      else none

/-- Parse an unsigned int literal body: at least one decimal digit, with
single underscores permitted between digits. -/
def parseUInt : List Char → Option Nat
  | [] => none
  | c :: cs =>
    match decDigit? c with
    | some v => parseDigitsU v cs
    | none => none

/-- Model of the Python `int(s)` conversion of a string (CPython, base
10): surrounding Unicode whitespace is stripped, an optional sign
precedes at least one Unicode decimal digit of any script, and single
underscores may stand between digits; anything else raises, which the
model renders as `none`. -/
def pyInt? (s : String) : Option Int :=
  match stripChars s.data with
  | [] => none
  | c :: cs =>
    if c = '-' then (parseUInt cs).map (fun n => -(n : Int))
    else if c = '+' then (parseUInt cs).map (fun n => (n : Int))
    else (parseUInt (c :: cs)).map (fun n => (n : Int))

/-- YearKey is the value of the local variable `year` after the
`int(...)` coercion of lines 135-138: either an integer, or the raw
non-integer value kept by the `except` fallback. -/
inductive YearKey where
  | intKey : Int → YearKey
  | strKey : String → YearKey
deriving DecidableEq, Repr

/-- Lines 135-138: `year = int(selected_year)`, falling back to the raw
value when the coercion raises.  `int(None)` raises, so the unset case
falls back to the raw value (printed `None`); that branch is unreachable
because line 130 already returned on a falsy year. -/
def coerceYear : YearInput → YearKey
  | .unset => .strKey "None"
  | .intVal n => .intKey n
  | .strVal s =>
    match pyInt? s with
    | some n => .intKey n
    | none => .strKey s

/-- Line 140: elementwise test `data["Year"] == year`.  Comparing the
integer Year column with a non-integer value is elementwise False in
pandas. -/
def yearMatches (k : YearKey) (r : Record) : Bool :=
  match k with
  | .intKey n => decide (r.Year = n)
  | .strKey _ => false

/-- String interpolation `f"{year}"` of the coerced year. -/
def yearStr : YearKey → String
  | .intKey n => toString n
  | .strKey s => s

/-- Panel is the value returned by `update_output_container`: a plain
message `html.Div`, or the two-row grid of four charts, identified by the
derived tables (and, for the yearly grid, the year string interpolated
into the chart titles). -/
inductive Panel where
  | message : String → Panel
  | recessionPanel : List (Int × Rat) → List (String × Rat) → List (String × Rat) →
      List ((Rat × String) × Rat) → Panel
  | yearlyPanel : String → List (Int × Rat) → List (Int × Rat) → List (String × Rat) →
      List (String × Rat) → Panel
deriving DecidableEq, Repr

/-- First chart table of a recession panel, when the panel is one. -/
def Panel.recC1 : Panel → Option (List (Int × Rat))
  | .recessionPanel a _ _ _ => some a
  | _ => none

/-- First chart table (all-years average) of a yearly panel. -/
def Panel.yearC1 : Panel → Option (List (Int × Rat))
  | .yearlyPanel _ a _ _ _ => some a
  | _ => none

/-- Second chart table (monthly totals) of a yearly panel. -/
def Panel.yearC2 : Panel → Option (List (Int × Rat))
  | .yearlyPanel _ _ b _ _ => some b
  | _ => none

/-- Third chart table (mean sales by vehicle type) of a yearly panel. -/
def Panel.yearC3 : Panel → Option (List (String × Rat))
  | .yearlyPanel _ _ _ c _ => some c
  | _ => none

/-- Fourth chart table (advertising expenditure by vehicle type) of a
yearly panel. -/
def Panel.yearC4 : Panel → Option (List (String × Rat))
  | .yearlyPanel _ _ _ _ d => some d
  | _ => none

/-- Lines 61-66: the year dropdown is enabled (disabled-flag False)
exactly when the statistics dropdown holds "Yearly Statistics"; `None`
and every other value leave it disabled. -/
def update_input_container (selected_statistics : Option String) : Bool :=
  if selected_statistics = some "Yearly Statistics" then false else true

/-- Lines 74-183: the chart-panel callback. -/
def update_output_container (data : List Record) (report_type : Option String)
    (selected_year : YearInput) : Panel :=
  if report_type = some "Recession Period Statistics" then
    let recession_data := data.filter (fun r => decide (r.Recession = 1))
    Panel.recessionPanel (yearly_rec recession_data) (average_sales recession_data)
      (exp_rec recession_data) (unemp_data recession_data)
  else if report_type = some "Yearly Statistics" then
    if selected_year.isFalsy then
      Panel.message "Please select a year from the dropdown to see Yearly Statistics."
    else
      let year := coerceYear selected_year
      let yearly_data := data.filter (yearMatches year)
      if yearly_data.isEmpty then
        Panel.message ("No data available for year " ++ yearStr year ++ ".")
      else
        Panel.yearlyPanel (yearStr year) (yas data) (mas yearly_data)
          (avr_vdata yearly_data) (exp_data yearly_data)
  else
    Panel.message "Choose a report type to view charts."

/-- Membership in an insertion: an element of `insertSorted le x l` is
`x` or an element of `l`. -/
theorem mem_insertSorted {α : Type} (le : α → α → Bool) (x y : α) (l : List α) :
    y ∈ insertSorted le x l ↔ y = x ∨ y ∈ l := by
  induction l with
  | nil => simp [insertSorted]
  | cons z zs ih =>
    cases h : le x z with
    | true => simp only [insertSorted, h, if_true, List.mem_cons]
    | false =>
      simp only [insertSorted, h, Bool.false_eq_true, if_false, List.mem_cons, ih]
      tauto

/-- Inserting into a list that is pairwise-ordered by a transitive total
boolean comparison keeps it pairwise-ordered. -/
theorem pairwise_insertSorted {α : Type} (le : α → α → Bool)
    (htrans : ∀ a b c, le a b = true → le b c = true → le a c = true)
    (htot : ∀ a b, le a b = true ∨ le b a = true)
    (x : α) (l : List α) (h : l.Pairwise (fun a b => le a b = true)) :
    (insertSorted le x l).Pairwise (fun a b => le a b = true) := by
  induction l with
  | nil => simp [insertSorted]
  | cons z zs ih =>
    rcases List.pairwise_cons.mp h with ⟨hz, hzs⟩
    cases hle : le x z with
    | true =>
      rw [insertSorted, if_pos hle]
      refine List.pairwise_cons.mpr ⟨?_, h⟩
      intro b hb
      rcases List.mem_cons.mp hb with rfl | hb
      · exact hle
      · exact htrans _ _ _ hle (hz b hb)
    | false =>
      rw [insertSorted, if_neg (by simp [hle])]
      refine List.pairwise_cons.mpr ⟨?_, ih hzs⟩
      intro b hb
      rcases (mem_insertSorted le x b zs).mp hb with rfl | hb
      · rcases htot b z with h1 | h1
        · exact absurd h1 (by simp [hle])
        · exact h1
      · exact hz b hb

/-- Insertion sort by a transitive total boolean comparison produces a
pairwise-ordered list. -/
theorem pairwise_insertionSortBy {α : Type} (le : α → α → Bool)
    (htrans : ∀ a b c, le a b = true → le b c = true → le a c = true)
    (htot : ∀ a b, le a b = true ∨ le b a = true)
    (l : List α) :
    (insertionSortBy le l).Pairwise (fun a b => le a b = true) := by
  induction l with
  | nil => simp [insertionSortBy]
  | cons x xs ih => exact pairwise_insertSorted le htrans htot x _ ih

/-- Keys of a groupby result are pairwise-ordered by the comparison used
to sort them. -/
theorem pairwise_groupbyAgg {K : Type} [DecidableEq K] (le : K → K → Bool)
    (htrans : ∀ a b c, le a b = true → le b c = true → le a c = true)
    (htot : ∀ a b, le a b = true ∨ le b a = true)
    (key : Record → K) (val : Record → Rat) (agg : List Rat → Rat)
    (rows : List Record) :
    (groupbyAgg le key val agg rows).Pairwise (fun p q => le p.1 q.1 = true) := by
  unfold groupbyAgg
  rw [List.pairwise_map]
  exact pairwise_insertionSortBy le htrans htot _

/-- Transitivity of the boolean Int comparison. -/
theorem intLe_trans (a b c : Int) (h1 : intLe a b = true) (h2 : intLe b c = true) :
    intLe a c = true := by
  simp only [intLe, decide_eq_true_eq] at *
  omega

/-- Totality of the boolean Int comparison. -/
theorem intLe_total (a b : Int) : intLe a b = true ∨ intLe b a = true := by
  simp only [intLe, decide_eq_true_eq]
  omega

/-- Unfolding of the recession branch (lines 76-126): the panel holds the
four aggregates of the rows with Recession == 1. -/
theorem update_rec_eq (data : List Record) (yin : YearInput) :
    update_output_container data (some "Recession Period Statistics") yin
      = Panel.recessionPanel
          (yearly_rec (data.filter (fun r => decide (r.Recession = 1))))
          (average_sales (data.filter (fun r => decide (r.Recession = 1))))
          (exp_rec (data.filter (fun r => decide (r.Recession = 1))))
          (unemp_data (data.filter (fun r => decide (r.Recession = 1)))) := rfl

/-- Unfolding of the default branch (line 183): any report type other
than the two dropdown values yields the generic placeholder. -/
theorem update_none_eq (data : List Record) (yin : YearInput) (rt : Option String)
    (h1 : rt ≠ some "Recession Period Statistics") (h2 : rt ≠ some "Yearly Statistics") :
    update_output_container data rt yin
      = Panel.message "Choose a report type to view charts." := by
  rw [update_output_container, if_neg h1, if_neg h2]

/-- Unfolding of lines 130-132: a falsy year yields the instructional
placeholder. -/
theorem update_yearly_unset (data : List Record) (yin : YearInput)
    (hf : yin.isFalsy = true) :
    update_output_container data (some "Yearly Statistics") yin
      = Panel.message "Please select a year from the dropdown to see Yearly Statistics." := by
  rw [update_output_container, if_neg (by simp), if_pos rfl, if_pos hf]

/-- Unfolding of lines 140-143: no row carries the coerced year, so the
no-data message is returned with the year interpolated. -/
theorem update_yearly_nodata (data : List Record) (yin : YearInput)
    (hf : yin.isFalsy = false)
    (he : data.filter (yearMatches (coerceYear yin)) = []) :
    update_output_container data (some "Yearly Statistics") yin
      = Panel.message ("No data available for year " ++ yearStr (coerceYear yin) ++ ".") := by
  rw [update_output_container, if_neg (by simp), if_pos rfl]
  simp only [hf, Bool.false_eq_true, if_false]
  simp [he]

/-- Unfolding of lines 145-180: with a truthy year and at least one
matching row, the yearly panel is built from the all-years table and the
three tables over the filtered rows. -/
theorem update_yearly_eq (data : List Record) (yin : YearInput)
    (hf : yin.isFalsy = false)
    (he : data.filter (yearMatches (coerceYear yin)) ≠ []) :
    update_output_container data (some "Yearly Statistics") yin
      = Panel.yearlyPanel (yearStr (coerceYear yin)) (yas data)
          (mas (data.filter (yearMatches (coerceYear yin))))
          (avr_vdata (data.filter (yearMatches (coerceYear yin))))
          (exp_data (data.filter (yearMatches (coerceYear yin)))) := by
  rw [update_output_container, if_neg (by simp), if_pos rfl]
  simp only [hf, Bool.false_eq_true, if_false]
  simp [List.isEmpty_iff, he]

/-- Keys of the recession table A (mean sales by Year) are in ascending
Year order. -/
theorem yearly_rec_pairwise (rows : List Record) :
    (yearly_rec rows).Pairwise (fun p q => p.1 ≤ q.1) := by
  have h := pairwise_groupbyAgg intLe intLe_trans intLe_total
    (fun r => r.Year) (fun r => r.Automobile_Sales) listMean rows
  exact h.imp (fun hab => of_decide_eq_true hab)

/-- Keys of the yearly table B (summed sales by Month, then
`sort_values("Month")`) are in ascending Month order. -/
theorem mas_pairwise (rows : List Record) :
    (mas rows).Pairwise (fun p q => p.1 ≤ q.1) := by
  unfold mas sort_values
  have h := pairwise_insertionSortBy (fun (p q : Int × Rat) => intLe p.1 q.1)
    (fun a b c h1 h2 => intLe_trans _ _ _ h1 h2)
    (fun a b => intLe_total a.1 b.1)
    (groupbyAgg intLe (fun r => r.Month) (fun r => r.Automobile_Sales) listSum rows)
  exact h.imp (fun hab => of_decide_eq_true hab)

/-- Claim C1: the year-field disabled-flag is false exactly on the input
`some "Yearly Statistics"` and true on every other input, the unset
(`none`) state included. -/
theorem c1_year_field_enablement :
    update_input_container (some "Yearly Statistics") = false
    ∧ ∀ s : Option String, s ≠ some "Yearly Statistics" → update_input_container s = true := by
  refine ⟨rfl, ?_⟩
  intro s hs
  rw [update_input_container, if_neg hs]

/-- Witness for C1 at the unset state and at the other dropdown value. -/
theorem c1_year_field_enablement_witness :
    ((none : Option String) ≠ some "Yearly Statistics")
    ∧ update_input_container none = true
    ∧ ((some "Recession Period Statistics" : Option String) ≠ some "Yearly Statistics")
    ∧ update_input_container (some "Recession Period Statistics") = true :=
  ⟨by decide, c1_year_field_enablement.2 none (by decide),
   by decide, c1_year_field_enablement.2 (some "Recession Period Statistics") (by decide)⟩

/-- Claim C2: a row whose Recession flag is not 1 never influences the
recession-family output: deleting it from the dataset leaves all four
recession tables, hence the whole panel, unchanged. -/
theorem c2_recession_rows_only (l1 l2 : List Record) (r : Record) (yin : YearInput)
    (h : r.Recession ≠ 1) :
    update_output_container (l1 ++ r :: l2) (some "Recession Period Statistics") yin
      = update_output_container (l1 ++ l2) (some "Recession Period Statistics") yin := by
  rw [update_rec_eq, update_rec_eq]
  have hf : (l1 ++ r :: l2).filter (fun s => decide (s.Recession = 1))
      = (l1 ++ l2).filter (fun s => decide (s.Recession = 1)) := by
    simp [List.filter_append, List.filter_cons, h]
  rw [hf]

/-- Witness for C2: dropping a non-recession row from a two-row dataset
leaves the recession panel unchanged. -/
theorem c2_recession_rows_only_witness :
    ((⟨1981, 2, 0, "Sedan", 10, 70, 5⟩ : Record).Recession ≠ 1)
    ∧ update_output_container
        [⟨1980, 1, 1, "Sports", 4, 100, 3⟩, ⟨1981, 2, 0, "Sedan", 10, 70, 5⟩]
        (some "Recession Period Statistics") .unset
      = update_output_container [⟨1980, 1, 1, "Sports", 4, 100, 3⟩]
        (some "Recession Period Statistics") .unset :=
  ⟨by decide,
   c2_recession_rows_only [⟨1980, 1, 1, "Sports", 4, 100, 3⟩] []
     ⟨1981, 2, 0, "Sedan", 10, 70, 5⟩ .unset (by decide)⟩

/-- Claim C3: in the yearly family, tables B, C, D are insensitive to
rows of other years (deleting such a row leaves them unchanged), while
table A is the mean-by-Year aggregate of the ENTIRE dataset, the deleted
row included. -/
theorem c3_yearly_scoping (l1 l2 : List Record) (r : Record) (y : Int)
    (hy : r.Year ≠ y) (h0 : y ≠ 0)
    (hne : (l1 ++ l2).filter (fun s => decide (s.Year = y)) ≠ []) :
    ((update_output_container (l1 ++ r :: l2) (some "Yearly Statistics") (.intVal y)).yearC2
      = (update_output_container (l1 ++ l2) (some "Yearly Statistics") (.intVal y)).yearC2)
    ∧ ((update_output_container (l1 ++ r :: l2) (some "Yearly Statistics") (.intVal y)).yearC3
      = (update_output_container (l1 ++ l2) (some "Yearly Statistics") (.intVal y)).yearC3)
    ∧ ((update_output_container (l1 ++ r :: l2) (some "Yearly Statistics") (.intVal y)).yearC4
      = (update_output_container (l1 ++ l2) (some "Yearly Statistics") (.intVal y)).yearC4)
    ∧ ((update_output_container (l1 ++ r :: l2) (some "Yearly Statistics") (.intVal y)).yearC1
      = some (yas (l1 ++ r :: l2)))
    ∧ ((update_output_container (l1 ++ l2) (some "Yearly Statistics") (.intVal y)).yearC1
      = some (yas (l1 ++ l2))) := by
  have hf : (YearInput.intVal y).isFalsy = false := by
    simp [YearInput.isFalsy, h0]
  have hfil : (l1 ++ r :: l2).filter (yearMatches (coerceYear (.intVal y)))
      = (l1 ++ l2).filter (yearMatches (coerceYear (.intVal y))) := by
    show (l1 ++ r :: l2).filter (fun s => decide (s.Year = y))
      = (l1 ++ l2).filter (fun s => decide (s.Year = y))
    simp [List.filter_append, List.filter_cons, hy]
  have hne2 : (l1 ++ l2).filter (yearMatches (coerceYear (.intVal y))) ≠ [] := hne
  have hbig := update_yearly_eq (l1 ++ r :: l2) (.intVal y) hf (by rw [hfil]; exact hne2)
  have hsmall := update_yearly_eq (l1 ++ l2) (.intVal y) hf hne2
  rw [hbig, hsmall, hfil]
  exact ⟨rfl, rfl, rfl, rfl, rfl⟩

/-- Witness for C3: removing a 1990 row from a dataset queried for 1981
leaves tables B, C, D unchanged, while table A is the all-years
aggregate on each side. -/
theorem c3_yearly_scoping_witness :
    ((⟨1990, 4, 0, "Sedan", 8, 50, 3⟩ : Record).Year ≠ 1981)
    ∧ ((1981 : Int) ≠ 0)
    ∧ (List.filter (fun s => decide (s.Year = (1981 : Int)))
        [(⟨1981, 3, 1, "Sports", 6, 40, 2⟩ : Record)] ≠ [])
    ∧ (((update_output_container
          [⟨1981, 3, 1, "Sports", 6, 40, 2⟩, ⟨1990, 4, 0, "Sedan", 8, 50, 3⟩]
          (some "Yearly Statistics") (.intVal 1981)).yearC2
        = (update_output_container [⟨1981, 3, 1, "Sports", 6, 40, 2⟩]
          (some "Yearly Statistics") (.intVal 1981)).yearC2)
      ∧ (((update_output_container
          [⟨1981, 3, 1, "Sports", 6, 40, 2⟩, ⟨1990, 4, 0, "Sedan", 8, 50, 3⟩]
          (some "Yearly Statistics") (.intVal 1981)).yearC3
        = (update_output_container [⟨1981, 3, 1, "Sports", 6, 40, 2⟩]
          (some "Yearly Statistics") (.intVal 1981)).yearC3))
      ∧ (((update_output_container
          [⟨1981, 3, 1, "Sports", 6, 40, 2⟩, ⟨1990, 4, 0, "Sedan", 8, 50, 3⟩]
          (some "Yearly Statistics") (.intVal 1981)).yearC4
        = (update_output_container [⟨1981, 3, 1, "Sports", 6, 40, 2⟩]
          (some "Yearly Statistics") (.intVal 1981)).yearC4))
      ∧ ((update_output_container
          [⟨1981, 3, 1, "Sports", 6, 40, 2⟩, ⟨1990, 4, 0, "Sedan", 8, 50, 3⟩]
          (some "Yearly Statistics") (.intVal 1981)).yearC1
        = some (yas [⟨1981, 3, 1, "Sports", 6, 40, 2⟩, ⟨1990, 4, 0, "Sedan", 8, 50, 3⟩]))
      ∧ ((update_output_container [⟨1981, 3, 1, "Sports", 6, 40, 2⟩]
          (some "Yearly Statistics") (.intVal 1981)).yearC1
        = some (yas [⟨1981, 3, 1, "Sports", 6, 40, 2⟩]))) :=
  ⟨by decide, by decide, by decide,
   c3_yearly_scoping [⟨1981, 3, 1, "Sports", 6, 40, 2⟩] []
     ⟨1990, 4, 0, "Sedan", 8, 50, 3⟩ 1981 (by decide) (by decide) (by decide)⟩

/-- Claim C4: with the recession report type the year input is ignored:
any two year values give the same panel on the same dataset. -/
theorem c4_recession_ignores_year (data : List Record) (y1 y2 : YearInput) :
    update_output_container data (some "Recession Period Statistics") y1
      = update_output_container data (some "Recession Period Statistics") y2 := by
  rw [update_rec_eq data y1, update_rec_eq data y2]

/-- Claim C5: with the yearly report type and a selected year matching no
row, the callback returns (normally) the no-data message interpolating
the exact selected year. -/
theorem c5_nodata_message (data : List Record) (y : Int) (h0 : y ≠ 0)
    (h : data.filter (fun s => decide (s.Year = y)) = []) :
    update_output_container data (some "Yearly Statistics") (.intVal y)
      = Panel.message ("No data available for year " ++ toString y ++ ".") := by
  have hf : (YearInput.intVal y).isFalsy = false := by
    simp [YearInput.isFalsy, h0]
  have he : data.filter (yearMatches (coerceYear (.intVal y))) = [] := h
  exact update_yearly_nodata data (.intVal y) hf he

/-- Witness for C5: year 1981 absent from a one-row 1980 dataset yields
the message echoing 1981. -/
theorem c5_nodata_message_witness :
    ((1981 : Int) ≠ 0)
    ∧ (List.filter (fun s => decide (s.Year = (1981 : Int)))
        [(⟨1980, 1, 1, "Sports", 4, 100, 3⟩ : Record)] = [])
    ∧ update_output_container [⟨1980, 1, 1, "Sports", 4, 100, 3⟩]
        (some "Yearly Statistics") (.intVal 1981)
      = Panel.message ("No data available for year " ++ toString (1981 : Int) ++ ".") :=
  ⟨by decide, by decide,
   c5_nodata_message [⟨1980, 1, 1, "Sports", 4, 100, 3⟩] 1981 (by decide) (by decide)⟩

/-- Claim C6: with the yearly report type and the year unset, the
callback returns the instructional placeholder. -/
theorem c6_unset_year_placeholder (data : List Record) :
    update_output_container data (some "Yearly Statistics") .unset
      = Panel.message "Please select a year from the dropdown to see Yearly Statistics." :=
  update_yearly_unset data .unset rfl

/-- Claim C7: with no report type selected, the callback returns the
generic placeholder. -/
theorem c7_no_report_placeholder (data : List Record) (yin : YearInput) :
    update_output_container data none yin
      = Panel.message "Choose a report type to view charts." :=
  update_none_eq data yin none (by simp) (by simp)

/-- Claim C8: the recession table A carries its Year keys in ascending
order, and the yearly table B carries its Month keys in ascending order,
whenever the respective panel is produced. -/
theorem c8_grouped_output_ordering (data : List Record) (yin : YearInput) (y : Int)
    (h0 : y ≠ 0)
    (hne : data.filter (fun s => decide (s.Year = y)) ≠ []) :
    (∃ t, (update_output_container data (some "Recession Period Statistics") yin).recC1
        = some t ∧ t.Pairwise (fun p q => p.1 ≤ q.1))
    ∧ (∃ t, (update_output_container data (some "Yearly Statistics") (.intVal y)).yearC2
        = some t ∧ t.Pairwise (fun p q => p.1 ≤ q.1)) := by
  constructor
  · refine ⟨yearly_rec (data.filter (fun r => decide (r.Recession = 1))), ?_, ?_⟩
    · rw [update_rec_eq]
      rfl
    · exact yearly_rec_pairwise _
  · have hf : (YearInput.intVal y).isFalsy = false := by
      simp [YearInput.isFalsy, h0]
    have hne2 : data.filter (yearMatches (coerceYear (.intVal y))) ≠ [] := hne
    refine ⟨mas (data.filter (yearMatches (coerceYear (.intVal y)))), ?_, ?_⟩
    · rw [update_yearly_eq data (.intVal y) hf hne2]
      rfl
    · exact mas_pairwise _

/-- Witness for C8 on a concrete two-row dataset queried for 1981. -/
theorem c8_grouped_output_ordering_witness :
    ((1981 : Int) ≠ 0)
    ∧ (List.filter (fun s => decide (s.Year = (1981 : Int)))
        [(⟨1981, 3, 1, "Sports", 6, 40, 2⟩ : Record),
         (⟨1981, 1, 1, "Sedan", 8, 50, 3⟩ : Record)] ≠ [])
    ∧ ((∃ t, (update_output_container
          [⟨1981, 3, 1, "Sports", 6, 40, 2⟩, ⟨1981, 1, 1, "Sedan", 8, 50, 3⟩]
          (some "Recession Period Statistics") .unset).recC1
        = some t ∧ t.Pairwise (fun p q => p.1 ≤ q.1))
      ∧ (∃ t, (update_output_container
          [⟨1981, 3, 1, "Sports", 6, 40, 2⟩, ⟨1981, 1, 1, "Sedan", 8, 50, 3⟩]
          (some "Yearly Statistics") (.intVal 1981)).yearC2
        = some t ∧ t.Pairwise (fun p q => p.1 ≤ q.1))) :=
  ⟨by decide, by decide,
   c8_grouped_output_ordering
     [⟨1981, 3, 1, "Sports", 6, 40, 2⟩, ⟨1981, 1, 1, "Sedan", 8, 50, 3⟩]
     .unset 1981 (by decide) (by decide)⟩

/-- Claim C9: the callback is deterministic: equal selection states on
the same dataset give equal panels; there is no hidden state. -/
theorem c9_deterministic (data : List Record) (rt1 rt2 : Option String)
    (y1 y2 : YearInput) (h1 : rt1 = rt2) (h2 : y1 = y2) :
    update_output_container data rt1 y1 = update_output_container data rt2 y2 := by
  rw [h1, h2]

/-- Witness for C9 at a concrete selection state. -/
theorem c9_deterministic_witness :
    ((some "Yearly Statistics" : Option String) = some "Yearly Statistics")
    ∧ update_output_container [] (some "Yearly Statistics") (.intVal 1985)
      = update_output_container [] (some "Yearly Statistics") (.intVal 1985) :=
  ⟨rfl, c9_deterministic [] (some "Yearly Statistics") (some "Yearly Statistics")
    (.intVal 1985) (.intVal 1985) rfl rfl⟩

/-- Spot checks of the int conversion model against Python `int()`:
surrounding whitespace is stripped, single underscores between digits
are allowed, signs and non-ASCII decimal digits (here Arabic-Indic) are
read, and malformed or digit-free literals fail. -/
theorem pyInt_spot_checks :
    pyInt? " 1981 " = some 1981
    ∧ pyInt? "19_81" = some 1981
    ∧ pyInt? "-42" = some (-42)
    ∧ pyInt? "+42" = some 42
    ∧ pyInt? "١٩٨١" = some 1981
    ∧ pyInt? "abc" = none
    ∧ pyInt? "" = none
    ∧ pyInt? " " = none
    ∧ pyInt? "-" = none
    ∧ pyInt? "_1981" = none
    ∧ pyInt? "1981_" = none
    ∧ pyInt? "19__81" = none
    ∧ pyInt? "1 9" = none := by
  decide

/-- Claim C10: the callback is total: any unrecognized report type
(unset included) falls through to the default placeholder, and a
non-integer year value is kept by the coercion fallback and yields the
no-data message echoing the raw value, never an exception. -/
theorem c10_totality :
    (∀ (data : List Record) (rt : Option String) (yin : YearInput),
        rt ≠ some "Recession Period Statistics" → rt ≠ some "Yearly Statistics" →
        update_output_container data rt yin
          = Panel.message "Choose a report type to view charts.")
    ∧ (∀ (data : List Record) (s : String), s ≠ "" → pyInt? s = none →
        update_output_container data (some "Yearly Statistics") (.strVal s)
          = Panel.message ("No data available for year " ++ s ++ ".")) := by
  constructor
  · intro data rt yin h1 h2
    exact update_none_eq data yin rt h1 h2
  · intro data s hs ht
    have hf : (YearInput.strVal s).isFalsy = false := by
      simp [YearInput.isFalsy, hs]
    have hc : coerceYear (.strVal s) = .strKey s := by
      simp [coerceYear, ht]
    have he : data.filter (yearMatches (coerceYear (.strVal s))) = [] := by
      rw [hc]
      show data.filter (fun _ => false) = []
      simp
    rw [update_yearly_nodata data (.strVal s) hf he, hc]
    rfl

/-- Witness for C10: an unknown report type and a non-integer year value
both return messages. -/
theorem c10_totality_witness :
    ((some "Quarterly" : Option String) ≠ some "Recession Period Statistics")
    ∧ ((some "Quarterly" : Option String) ≠ some "Yearly Statistics")
    ∧ update_output_container [] (some "Quarterly") .unset
        = Panel.message "Choose a report type to view charts."
    ∧ ("abc" ≠ "")
    ∧ (pyInt? "abc" = none)
    ∧ update_output_container [] (some "Yearly Statistics") (.strVal "abc")
        = Panel.message ("No data available for year " ++ "abc" ++ ".") :=
  ⟨by decide, by decide,
   c10_totality.1 [] (some "Quarterly") .unset (by decide) (by decide),
   by decide, by decide,
   c10_totality.2 [] "abc" (by decide) (by decide)⟩
